import Mathlib

/-!
Verification of the OpenAI GPT translation layer: the request builder
(`toOpenAiRequestBody`, `toOpenAiMessages`) and the response reducer
(`fromOpenAiChoice`, `fromOpenAiChunkChoice`, `fromOpenAiToolCall`) of the
plugin, embedded shallowly.  JavaScript values that flow through the
translation (JSON-parsed tool arguments, request-body fields) are modelled
by `JSVal`; JSON numbers are modelled as integers, which covers every value
the translation layer itself constructs or inspects.
-/

/-- A JavaScript value as it appears in the translation layer: `undefined` is
the JavaScript `undefined` (distinct from JSON `null`), objects are ordered
key/value lists as JavaScript objects are. -/
inductive JSVal where
  | undefined
  | null
  | bool (b : Bool)
  | num (n : Int)
  | str (s : String)
  | arr (elems : List JSVal)
  | obj (fields : List (String × JSVal))

/-- JavaScript truthiness of a `JSVal` (`undefined`, `null`, `false`, `0`
and the empty string are falsy; every array and object is truthy). -/
def JSVal.truthy : JSVal → Bool
  | .undefined => false
  | .null => false
  | .bool b => b
  | .num n => n != 0
  | .str s => !s.isEmpty
  | .arr _ => true
  | .obj _ => true

/-- Whether a `JSVal` is a zero-length array (`Array.isArray(v) && !v.length`). -/
def JSVal.isEmptyArray : JSVal → Bool
  | .arr [] => true
  | _ => false

/-- JSON whitespace. -/
def isJsonWs (c : Char) : Bool :=
  c = ' ' || c = '\t' || c = '\n' || c = '\r'

/-- Drop leading JSON whitespace. -/
def skipWs : List Char → List Char
  | [] => []
  | c :: cs => if isJsonWs c then skipWs cs else c :: cs

/-- Hex digit value, if any. -/
def hexVal (c : Char) : Option Nat :=
  if '0' ≤ c ∧ c ≤ '9' then some (c.toNat - '0'.toNat)
  else if 'a' ≤ c ∧ c ≤ 'f' then some (c.toNat - 'a'.toNat + 10)
  else if 'A' ≤ c ∧ c ≤ 'F' then some (c.toNat - 'A'.toNat + 10)
  else none

/-- Parse the body of a JSON string literal (the opening quote already
consumed), returning the decoded string and the remaining input. -/
def parseStringBody (acc : String) : List Char → Option (String × List Char)
  | [] => none
  | '"' :: rest => some (acc, rest)
  | '\\' :: e :: rest =>
    match e with
    | '"' => parseStringBody (acc.push '"') rest
    | '\\' => parseStringBody (acc.push '\\') rest
    | '/' => parseStringBody (acc.push '/') rest
    | 'b' => parseStringBody (acc.push (Char.ofNat 8)) rest
    | 'f' => parseStringBody (acc.push (Char.ofNat 12)) rest
    | 'n' => parseStringBody (acc.push '\n') rest
    | 'r' => parseStringBody (acc.push '\r') rest
    | 't' => parseStringBody (acc.push '\t') rest
    | 'u' =>
      match rest with
      | a :: b :: c :: d :: rest2 =>
        match hexVal a, hexVal b, hexVal c, hexVal d with
        | some ha, some hb, some hc, some hd =>
          parseStringBody
            (acc.push (Char.ofNat (((ha * 16 + hb) * 16 + hc) * 16 + hd))) rest2
        | _, _, _, _ => none
      | _ => none
    | _ => none
  | c :: rest => parseStringBody (acc.push c) rest

/-- Decimal digits to a natural number. -/
def digitsToNat : List Char → Nat → Nat
  | [], acc => acc
  | c :: cs, acc => digitsToNat cs (acc * 10 + (c.toNat - '0'.toNat))

/-- Parse a JSON integer (optional minus sign then digits; fractional and
exponent parts are outside this model). -/
def parseIntLit : List Char → Option (Int × List Char)
  | '-' :: rest =>
    match rest.takeWhile (·.isDigit), rest.dropWhile (·.isDigit) with
    | [], _ => none
    | ds, rest2 => some (-(Int.ofNat (digitsToNat ds 0)), rest2)
  | l =>
    match l.takeWhile (·.isDigit), l.dropWhile (·.isDigit) with
    | [], _ => none
    | ds, rest2 => some (Int.ofNat (digitsToNat ds 0), rest2)

/-- Parsing mode: a single JSON value, the remaining items of a non-empty
array, or the remaining fields of a non-empty object. -/
inductive JMode where
  | value
  | items
  | fields

/-- Fuel-driven JSON parsing: in `value` mode returns the parsed value and
the remaining input; in `items` mode (after `[`) returns the items wrapped
as `.arr`; in `fields` mode (after `\x7b`) returns the fields wrapped as
`.obj`. -/
def parseJson : Nat → JMode → List Char → Option (JSVal × List Char)
  | 0, _, _ => none
  | fuel + 1, .value, l =>
    match skipWs l with
    | 'n' :: 'u' :: 'l' :: 'l' :: rest => some (.null, rest)
    | 't' :: 'r' :: 'u' :: 'e' :: rest => some (.bool true, rest)
    | 'f' :: 'a' :: 'l' :: 's' :: 'e' :: rest => some (.bool false, rest)
    | '"' :: rest =>
      match parseStringBody "" rest with
      | some (s, rest2) => some (.str s, rest2)
      | none => none
    | '[' :: rest =>
      match skipWs rest with
      | ']' :: rest2 => some (.arr [], rest2)
      | rest2 => parseJson fuel .items rest2
    | '{' :: rest =>
      match skipWs rest with
      | '}' :: rest2 => some (.obj [], rest2)
      | rest2 => parseJson fuel .fields rest2
    | l2 =>
      match parseIntLit l2 with
      | some (n, rest) => some (.num n, rest)
      | none => none
  | fuel + 1, .items, l =>
    match parseJson fuel .value l with
    | some (v, rest) =>
      match skipWs rest with
      | ',' :: rest2 =>
        match parseJson fuel .items rest2 with
        | some (.arr vs, rest3) => some (.arr (v :: vs), rest3)
        | _ => none
      | ']' :: rest2 => some (.arr [v], rest2)
      | _ => none
    | none => none
  | fuel + 1, .fields, l =>
    match skipWs l with
    | '"' :: rest =>
      match parseStringBody "" rest with
      | some (k, rest2) =>
        match skipWs rest2 with
        | ':' :: rest3 =>
          match parseJson fuel .value rest3 with
          | some (v, rest4) =>
            match skipWs rest4 with
            | ',' :: rest5 =>
              match parseJson fuel .fields rest5 with
              | some (.obj kvs, rest6) => some (.obj ((k, v) :: kvs), rest6)
              | _ => none
            | '}' :: rest5 => some (.obj [(k, v)], rest5)
            | _ => none
          | none => none
        | _ => none
      | none => none
    | _ => none

/-- The model of `JSON.parse`: succeeds exactly when the whole input is one
JSON value (with surrounding whitespace). -/
def jsonParse (s : String) : Option JSVal :=
  match parseJson (s.length + 2) .value s.data with
  | some (v, rest) => if (skipWs rest).isEmpty then some v else none
  | none => none

/-- Escape one character for a JSON string literal. -/
def jsonEscapeChar (c : Char) : String :=
  if c = '"' then "\\\""
  else if c = '\\' then "\\\\"
  else if c = '\n' then "\\n"
  else if c = '\r' then "\\r"
  else if c = '\t' then "\\t"
  else String.singleton c

/-- Quote a string as a JSON string literal. -/
def jsonQuote (s : String) : String :=
  "\"" ++ String.join (s.data.map jsonEscapeChar) ++ "\""

mutual

/-- The model of `JSON.stringify`: `undefined` serializes to no string at
all (`JSON.stringify(undefined) === undefined`). -/
def jsonStringify : JSVal → Option String
  | .undefined => none
  | .null => some "null"
  | .bool true => some "true"
  | .bool false => some "false"
  | .num n => some (toString n)
  | .str s => some (jsonQuote s)
  | .arr xs => some ("[" ++ ",".intercalate (jsonStringifyItems xs) ++ "]")
  | .obj kvs => some ("\x7b" ++ ",".intercalate (jsonStringifyFields kvs) ++ "\x7d")

/-- Array elements; `undefined` elements render as `null`. -/
def jsonStringifyItems : List JSVal → List String
  | [] => []
  | v :: vs => ((jsonStringify v).getD "null") :: jsonStringifyItems vs

/-- Object fields; fields whose value serializes to nothing are skipped. -/
def jsonStringifyFields : List (String × JSVal) → List String
  | [] => []
  | (k, v) :: kvs =>
    match jsonStringify v with
    | some s => (jsonQuote k ++ ":" ++ s) :: jsonStringifyFields kvs
    | none => jsonStringifyFields kvs

end

/-! ## Generic (Genkit) data model -/

/-- Message role of the generic abstraction. -/
inductive Role where
  | user
  | model
  | system
  | tool
deriving DecidableEq

/-- A media reference inside a message part. -/
structure Media where
  url : String
  contentType : Option String := none

/-- A model-issued instruction to invoke a tool (`name` flows through the
vendor payload unchecked, hence optional). -/
structure ToolRequest where
  name : Option String := none
  ref : Option String := none
  input : JSVal := .undefined

/-- The caller-supplied result of a tool call. -/
structure ToolResponse where
  ref : Option String := none
  output : JSVal := .undefined

/-- A loose-field message part: the source checks which optional field is
set rather than using a tagged union. -/
structure MsgPart where
  text : Option String := none
  media : Option Media := none
  toolRequest : Option ToolRequest := none
  toolResponse : Option ToolResponse := none
  data : Option JSVal := none

/-- A generic message: a role plus an ordered list of parts. -/
structure MessageData where
  role : Role
  content : List MsgPart

/-- `Message.text()`: the concatenation of each part's text (missing or
empty text contributes the empty string). -/
def msgText (m : MessageData) : String :=
  String.join (m.content.map fun p => p.text.getD "")

/-- The parts of a message carrying a tool response
(`Message.toolResponseParts()`). -/
def msgToolResponses (m : MessageData) : List ToolResponse :=
  m.content.filterMap fun p => p.toolResponse

/-- A tool definition of the generic request. -/
structure ToolDefinition where
  name : String
  inputSchema : JSVal := .undefined

/-- Generic finish reason (`CandidateData.finishReason`). -/
inductive FinishReason where
  | stop
  | length
  | blocked
  | other
  | unknown
deriving DecidableEq

/-- One generated candidate of the generic response. -/
structure CandidateData where
  index : Int
  finishReason : FinishReason
  message : MessageData
  custom : JSVal := .obj []

/-! ## Vendor (OpenAI) data model -/

/-- Vendor chat role. -/
inductive OpenAiRole where
  | user
  | assistant
  | system
  | tool
deriving DecidableEq

/-- A vendor content item of a user message. -/
inductive OpenAiContentPart where
  | text (t : String)
  | imageUrl (url : String) (detail : String)

/-- An outgoing vendor tool call, built from a generic tool-request part
(`arguments` is the JSON-serialized input, absent when the input was
`undefined`). -/
structure OutToolCall where
  id : String
  name : Option String
  arguments : Option String

/-- A vendor chat message (`ChatCompletionMessageParam`), one constructor
per shape the source emits. -/
inductive OpenAiMsg where
  | user (content : List OpenAiContentPart)
  | system (content : String)
  | assistantText (content : String)
  | assistantToolCalls (tool_calls : List OutToolCall)
  | tool (tool_call_id : String) (content : Option String)

/-- The `function` payload of an incoming vendor tool call. -/
structure ToolCallFunction where
  name : Option String := none
  arguments : Option String := none

/-- An incoming vendor tool call (completion or chunk delta shape). -/
structure InToolCall where
  id : Option String := none
  function : Option ToolCallFunction := none

/-- The message (or chunk delta) of a vendor choice. -/
structure ChoiceMessage where
  content : Option String := none
  tool_calls : Option (List InToolCall) := none

/-- A non-streaming vendor choice. -/
structure Choice where
  index : Int
  finish_reason : Option String := none
  message : ChoiceMessage

/-- A streaming vendor chunk choice. -/
structure ChunkChoice where
  index : Int
  finish_reason : Option String := none
  delta : ChoiceMessage

/-! ## Capability registry -/

/-- Capability flags of a model descriptor (`info.supports`). -/
structure ModelSupports where
  multiturn : Bool
  tools : Bool
  media : Bool
  systemRole : Bool
  output : Option (List String) := none

/-- Descriptor metadata (`info`). -/
structure ModelInfo where
  versions : List String
  label : String
  supports : Option ModelSupports := none

/-- A model reference: name, metadata and an optional default version
(never set by this module). -/
structure ModelRef where
  name : String
  info : ModelInfo
  version : Option String := none

def gpt4o : ModelRef :=
  { name := "openai/gpt-4o"
    info :=
      { versions := ["gpt-4o", "gpt-4o-2024-05-13"]
        label := "OpenAI - GPT-4o"
        supports := some
          { multiturn := true, tools := true, media := true, systemRole := true
            output := some ["text", "json"] } } }

def gpt4oMini : ModelRef :=
  { name := "openai/gpt-4o-mini"
    info :=
      { versions := ["gpt-4o-mini", "gpt-4o-mini-2024-07-18"]
        label := "OpenAI - GPT-4o mini"
        supports := some
          { multiturn := true, tools := true, media := true, systemRole := true
            output := some ["text", "json"] } } }

def gpt4Turbo : ModelRef :=
  { name := "openai/gpt-4-turbo"
    info :=
      { versions :=
          ["gpt-4-turbo", "gpt-4-turbo-2024-04-09", "gpt-4-turbo-preview",
           "gpt-4-0125-preview", "gpt-4-1106-preview"]
        label := "OpenAI - GPT-4 Turbo"
        supports := some
          { multiturn := true, tools := true, media := true, systemRole := true
            output := some ["text", "json"] } } }

def gpt4Vision : ModelRef :=
  { name := "openai/gpt-4-vision"
    info :=
      { versions := ["gpt-4-vision-preview", "gpt-4-1106-vision-preview"]
        label := "OpenAI - GPT-4 Vision"
        supports := some
          { multiturn := true, tools := false, media := true, systemRole := true
            output := some ["text"] } } }

def gpt4 : ModelRef :=
  { name := "openai/gpt-4"
    info :=
      { versions := ["gpt-4", "gpt-4-0613", "gpt-4-32k", "gpt-4-32k-0613"]
        label := "OpenAI - GPT-4"
        supports := some
          { multiturn := true, tools := true, media := false, systemRole := true
            output := some ["text"] } } }

def gpt35Turbo : ModelRef :=
  { name := "openai/gpt-3.5-turbo"
    info :=
      { versions := ["gpt-3.5-turbo-0125", "gpt-3.5-turbo", "gpt-3.5-turbo-1106"]
        label := "OpenAI - GPT-3.5 Turbo"
        supports := some
          { multiturn := true, tools := true, media := false, systemRole := true
            output := some ["json", "text"] } } }

/-- The registry of supported models, keyed by model name. -/
def SUPPORTED_GPT_MODELS : List (String × ModelRef) :=
  [("gpt-4o", gpt4o), ("gpt-4o-mini", gpt4oMini), ("gpt-4-turbo", gpt4Turbo),
   ("gpt-4-vision", gpt4Vision), ("gpt-4", gpt4), ("gpt-3.5-turbo", gpt35Turbo)]

/-- The fixed allow-list of versions supporting the response-format directive. -/
def MODELS_SUPPORTING_OPENAI_RESPONSE_FORMAT : List String :=
  ["gpt-4o", "gpt-4o-2024-05-13", "gpt-4o-mini", "gpt-4o-mini-2024-07-18",
   "gpt-4-turbo", "gpt-4-turbo-2024-04-09", "gpt-4-turbo-preview",
   "gpt-4-0125-preview", "gpt-4-1106-preview", "gpt-3.5-turbo-0125",
   "gpt-3.5-turbo", "gpt-3.5-turbo-1106"]

/-! ## Generic request -/

/-- Desired output options of a generic request. -/
structure OutputConfig where
  format : Option String := none

/-- Generation config recognized by the config schema. -/
structure RequestConfig where
  version : Option String := none
  temperature : Option Int := none
  maxOutputTokens : Option Int := none
  topP : Option Int := none
  stopSequences : Option (List String) := none
  frequencyPenalty : Option Int := none
  logitBias : Option (List (String × Int)) := none
  logProbs : Option Bool := none
  presencePenalty : Option Int := none
  seed : Option Int := none
  topLogProbs : Option Int := none
  user : Option String := none
  visualDetailLevel : Option String := none

/-- A generic generate request. -/
structure GenerateRequest where
  messages : List MessageData
  config : Option RequestConfig := none
  tools : Option (List ToolDefinition) := none
  output : Option OutputConfig := none
  candidates : Option Int := none

/-! ## Request builder -/

/-- `toOpenAIRole`: generic role to vendor role. -/
def toOpenAIRole : Role → OpenAiRole
  | .user => .user
  | .model => .assistant
  | .system => .system
  | .tool => .tool

/-- JavaScript truthiness of an optional string (absent or empty is falsy). -/
def strOptTruthy : Option String → Bool
  | some s => !s.isEmpty
  | none => false

/-- `toOpenAiTextAndMedia`: a part with truthy text becomes a text item, a
part with media becomes an image item, anything else is an error. -/
def toOpenAiTextAndMedia (part : MsgPart) (detail : String) :
    Except String OpenAiContentPart :=
  if strOptTruthy part.text then .ok (.text (part.text.getD ""))
  else
    match part.media with
    | some m => .ok (.imageUrl m.url detail)
    | none =>
      .error "Unsupported genkit part fields encountered for current message role."

/-- `array.map(f)` where `f` can throw: the first error aborts the whole map. -/
def mapExcept {α β : Type} (f : α → Except String β) : List α → Except String (List β)
  | [] => .ok []
  | x :: xs =>
    match f x with
    | .error e => .error e
    | .ok y =>
      match mapExcept f xs with
      | .error e => .error e
      | .ok ys => .ok (y :: ys)

/-- Convert one generic message to the vendor messages it contributes. -/
def toOpenAiMessageOne (detail : String) (message : MessageData) :
    Except String (List OpenAiMsg) :=
  match toOpenAIRole message.role with
  | .user =>
    match mapExcept (fun part => toOpenAiTextAndMedia part detail) message.content with
    | .error e => .error e
    | .ok parts => .ok [.user parts]
  | .system => .ok [.system (msgText message)]
  | .assistant =>
    let toolCalls : List OutToolCall :=
      message.content.filterMap fun part =>
        part.toolRequest.map fun tr =>
          { id := tr.ref.getD ""
            name := tr.name
            arguments := jsonStringify tr.input }
    if toolCalls.length > 0 then .ok [.assistantToolCalls toolCalls]
    else .ok [.assistantText (msgText message)]
  | .tool =>
    .ok ((msgToolResponses message).map fun tr =>
      .tool (tr.ref.getD "")
        (match tr.output with
         | .str s => some s
         | v => jsonStringify v))

/-- `toOpenAiMessages`: convert the message list (the `visualDetailLevel`
parameter defaults to `"auto"` when absent, as in the source). -/
def toOpenAiMessages (messages : List MessageData)
    (visualDetailLevel : Option String) : Except String (List OpenAiMsg) :=
  match mapExcept (toOpenAiMessageOne (visualDetailLevel.getD "auto")) messages with
  | .error e => .error e
  | .ok msgLists => .ok msgLists.flatten

/-- `toOpenAiTool`: a tool definition as the vendor tool object. -/
def toOpenAiTool (tool : ToolDefinition) : JSVal :=
  .obj [("type", .str "function"),
        ("function", .obj [("name", .str tool.name),
                           ("parameters", tool.inputSchema)])]

def encodeOpenAiContentPart : OpenAiContentPart → JSVal
  | .text t => .obj [("type", .str "text"), ("text", .str t)]
  | .imageUrl url detail =>
    .obj [("type", .str "image_url"),
          ("image_url", .obj [("url", .str url), ("detail", .str detail)])]

def optStrVal : Option String → JSVal
  | some s => .str s
  | none => .undefined

def optNumVal : Option Int → JSVal
  | some n => .num n
  | none => .undefined

def optBoolVal : Option Bool → JSVal
  | some b => .bool b
  | none => .undefined

def encodeOutToolCall (tc : OutToolCall) : JSVal :=
  .obj [("id", .str tc.id), ("type", .str "function"),
        ("function", .obj [("name", optStrVal tc.name),
                           ("arguments", optStrVal tc.arguments)])]

/-- A vendor message as the JavaScript object placed in the request body. -/
def encodeOpenAiMsg : OpenAiMsg → JSVal
  | .user parts =>
    .obj [("role", .str "user"),
          ("content", .arr (parts.map encodeOpenAiContentPart))]
  | .system c => .obj [("role", .str "system"), ("content", .str c)]
  | .assistantText c => .obj [("role", .str "assistant"), ("content", .str c)]
  | .assistantToolCalls tcs =>
    .obj [("role", .str "assistant"),
          ("tool_calls", .arr (tcs.map encodeOutToolCall))]
  | .tool id c =>
    .obj [("role", .str "tool"), ("tool_call_id", .str id),
          ("content", optStrVal c)]

/-- The JavaScript `a || b` on an optional string against a string default. -/
def jsStrOr (a : Option String) (b : String) : String :=
  match a with
  | some s => if s.isEmpty then b else s
  | none => b

/-- `request.config?.version || model.version || modelName`. -/
def resolvedModelVersion (model : ModelRef) (modelName : String)
    (request : GenerateRequest) : String :=
  jsStrOr (request.config.bind fun c => c.version) (jsStrOr model.version modelName)

/-- `model.info.supports?.output?.includes(fmt)`. -/
def modelSupportsOutput (model : ModelRef) (fmt : String) : Bool :=
  ((model.info.supports.bind fun s => s.output).getD []).contains fmt

/-- The request-body fields in source order, before response-format
negotiation and falsy-field stripping. -/
def requestBodyFields (mappedModelName : String)
    (openAiMessages : List OpenAiMsg) (request : GenerateRequest) :
    List (String × JSVal) :=
  [("model", .str mappedModelName),
   ("messages", .arr (openAiMessages.map encodeOpenAiMsg)),
   ("temperature", optNumVal (request.config.bind fun c => c.temperature)),
   ("max_tokens", optNumVal (request.config.bind fun c => c.maxOutputTokens)),
   ("top_p", optNumVal (request.config.bind fun c => c.topP)),
   ("stop",
     match request.config.bind fun c => c.stopSequences with
     | some l => .arr (l.map fun s => .str s)
     | none => .undefined),
   ("frequency_penalty", optNumVal (request.config.bind fun c => c.frequencyPenalty)),
   ("logit_bias",
     match request.config.bind fun c => c.logitBias with
     | some kvs => .obj (kvs.map fun kv => (kv.1, .num kv.2))
     | none => .undefined),
   ("logprobs", optBoolVal (request.config.bind fun c => c.logProbs)),
   ("presence_penalty", optNumVal (request.config.bind fun c => c.presencePenalty)),
   ("seed", optNumVal (request.config.bind fun c => c.seed)),
   ("top_logprobs", optNumVal (request.config.bind fun c => c.topLogProbs)),
   ("user", optStrVal (request.config.bind fun c => c.user)),
   ("tools",
     match request.tools with
     | some ts => .arr (ts.map toOpenAiTool)
     | none => .undefined),
   ("n", optNumVal request.candidates)]

/-- Structured-output negotiation: attempted only when a format is requested
(truthy) and the resolved version is in the allow-list; inside, an
unsupported format is a hard error, otherwise the directive is appended. -/
def addResponseFormat (model : ModelRef) (mappedModelName : String)
    (request : GenerateRequest) (body : List (String × JSVal)) :
    Except String (List (String × JSVal)) :=
  match request.output.bind fun o => o.format with
  | some fmt =>
    if fmt ≠ "" ∧ mappedModelName ∈ MODELS_SUPPORTING_OPENAI_RESPONSE_FORMAT then
      if fmt = "json" ∧ modelSupportsOutput model "json" = true then
        .ok (body ++ [("response_format", .obj [("type", .str "json_object")])])
      else if fmt = "text" ∧ modelSupportsOutput model "text" = true then
        .ok (body ++ [("response_format", .obj [("type", .str "text")])])
      else
        .error (fmt ++ " format is not supported for GPT models currently")
    else .ok body
  | none => .ok body

/-- Keep a body field iff its value is truthy and not a zero-length array. -/
def jsKeepField (v : JSVal) : Bool :=
  v.truthy && !v.isEmptyArray

/-- The final pruning loop: delete every falsy or zero-length-array field. -/
def stripFalsy (body : List (String × JSVal)) : List (String × JSVal) :=
  body.filter fun kv => jsKeepField kv.2

/-- `toOpenAiRequestBody`: registry lookup, message conversion, version
resolution, field mapping, response-format negotiation, falsy-field pruning. -/
def toOpenAiRequestBody (modelName : String) (request : GenerateRequest) :
    Except String (List (String × JSVal)) :=
  match SUPPORTED_GPT_MODELS.lookup modelName with
  | none => .error ("Unsupported model: " ++ modelName)
  | some model =>
    match toOpenAiMessages request.messages
        (request.config.bind fun c => c.visualDetailLevel) with
    | .error e => .error e
    | .ok openAiMessages =>
      match addResponseFormat model (resolvedModelVersion model modelName request)
          request
          (requestBodyFields (resolvedModelVersion model modelName request)
            openAiMessages request) with
      | .error e => .error e
      | .ok body2 => .ok (stripFalsy body2)

/-! ## Response reducer -/

/-- The fixed finish-reason table (`tool_calls` is mapped although the SDK
enum misses it); every unlisted key is absent. -/
def finishReasonMap : String → Option FinishReason
  | "length" => some .length
  | "stop" => some .stop
  | "tool_calls" => some .stop
  | "content_filter" => some .blocked
  | _ => none

/-- `fromOpenAiToolCall`: a missing function payload is a hard error;
arguments are JSON-parsed with a raw-string fallback, and a falsy (absent
or empty) arguments value passes through unparsed. -/
def fromOpenAiToolCall (toolCall : InToolCall) : Except String MsgPart :=
  match toolCall.function with
  | none =>
    .error "Unexpected openAI chunk choice. tool_calls was provided but one or more tool_calls is missing."
  | some f =>
    let args : JSVal :=
      match f.arguments with
      | none => .undefined
      | some s =>
        if s.isEmpty then .str ""
        else
          match jsonParse s with
          | some v => v
          | none => .str s
    .ok { toolRequest := some { name := f.name, ref := toolCall.id, input := args } }

/-- The single text-or-data part of a choice without usable tool calls:
with `jsonMode` the content must parse as JSON (`JSON.parse(null)` yields
`null`), otherwise the content string is kept as the text part. -/
def choiceContentPart (content : Option String) (jsonMode : Bool) :
    Except String MsgPart :=
  if jsonMode then
    match content with
    | some s =>
      match jsonParse s with
      | some v => .ok { data := some v }
      | none => .error "Unexpected token in JSON"
    | none => .ok { data := some JSVal.null }
  else .ok { text := content }

/-- The candidate record built by `fromOpenAiChoice` once the content list
is known. -/
def mkChoiceCandidate (choice : Choice) (content : List MsgPart) : CandidateData :=
  { index := choice.index
    finishReason :=
      match choice.finish_reason with
      | some r => (finishReasonMap r).getD .other
      | none => .other
    message := { role := .model, content := content }
    custom := .obj [] }

/-- `fromOpenAiChoice`: the non-streaming choice reduction; tool-request
parts are used only when the tool-call list is present and non-empty,
otherwise a single text-or-data part is emitted. -/
def fromOpenAiChoice (choice : Choice) (jsonMode : Bool) :
    Except String CandidateData :=
  match choice.message.tool_calls with
  | some tcs =>
    match mapExcept fromOpenAiToolCall tcs with
    | .error e => .error e
    | .ok ps =>
      if ps.length > 0 then .ok (mkChoiceCandidate choice ps)
      else
        match choiceContentPart choice.message.content jsonMode with
        | .error e => .error e
        | .ok p => .ok (mkChoiceCandidate choice [p])
  | none =>
    match choiceContentPart choice.message.content jsonMode with
    | .error e => .error e
    | .ok p => .ok (mkChoiceCandidate choice [p])

/-- The candidate record built by `fromOpenAiChunkChoice` once the content
list is known: a falsy (absent or empty) finish reason maps to `unknown`. -/
def mkChunkCandidate (choice : ChunkChoice) (content : List MsgPart) : CandidateData :=
  { index := choice.index
    finishReason :=
      match choice.finish_reason with
      | some r =>
        if r.isEmpty then .unknown else (finishReasonMap r).getD .other
      | none => .unknown
    message := { role := .model, content := content }
    custom := .obj [] }

/-- `fromOpenAiChunkChoice`: the streaming chunk reduction; a present
tool-call list (even empty) short-circuits the text branch. -/
def fromOpenAiChunkChoice (choice : ChunkChoice) (jsonMode : Bool) :
    Except String CandidateData :=
  match choice.delta.tool_calls with
  | some tcs =>
    match mapExcept fromOpenAiToolCall tcs with
    | .error e => .error e
    | .ok ps => .ok (mkChunkCandidate choice ps)
  | none =>
    match choiceContentPart choice.delta.content jsonMode with
    | .error e => .error e
    | .ok p => .ok (mkChunkCandidate choice [p])

/-! ## Runner -/

/-- The payload handed to the streaming callback per chunk choice. -/
structure ChunkEvent where
  index : Int
  content : List MsgPart

/-- What `gptRunner` does with one streamed chunk choice: it converts it
with `fromOpenAiChunkChoice(chunk)`, leaving `jsonMode` at its default
`false`, and passes index and content to the callback. -/
def gptRunnerChunkEvent (chunk : ChunkChoice) : Except String ChunkEvent :=
  match fromOpenAiChunkChoice chunk false with
  | .error e => .error e
  | .ok c => .ok { index := c.index, content := c.message.content }

/-- What `gptRunner` does with the final choices: each is reduced with
`jsonMode` derived from the request (`request.output?.format === 'json'`). -/
def gptRunnerCandidates (request : GenerateRequest) (choices : List Choice) :
    Except String (List CandidateData) :=
  mapExcept
    (fun c => fromOpenAiChoice c
      ((request.output.bind fun o => o.format) == some "json"))
    choices

/-! ## Helper lemmas -/

theorem isEmpty_false_of_ne {s : String} (h : s ≠ "") : s.isEmpty = false := by
  cases hc : s.isEmpty
  · rfl
  · exact absurd ((String.isEmpty_iff s).mp hc) h

theorem except_bind_ok {ε α β : Type} {x : Except ε α} {f : α → Except ε β} {b : β}
    (h : (x >>= f) = Except.ok b) : ∃ a, x = Except.ok a ∧ f a = Except.ok b := by
  cases x with
  | error e => simp [Bind.bind, Except.bind] at h
  | ok a => exact ⟨a, rfl, by simpa [Bind.bind, Except.bind] using h⟩

/-- The finish-reason table as the specification states it for present
values: length, stop, tool_calls, content_filter are mapped, anything else
is `other`. -/
def specFinishTable : String → FinishReason
  | "length" => .length
  | "stop" => .stop
  | "tool_calls" => .stop
  | "content_filter" => .blocked
  | _ => .other

theorem finishReasonMap_getD (r : String) :
    (finishReasonMap r).getD FinishReason.other = specFinishTable r := by
  unfold finishReasonMap specFinishTable
  split <;> rfl

/-! ## Claims -/

/-- C3: a vendor tool-call entry whose function payload is absent makes the
tool-call conversion fail with the hard malformed-tool-call error instead of
producing a tool-request part. -/
theorem claim3_missing_function (tc : InToolCall) (h : tc.function = none) :
    fromOpenAiToolCall tc =
      .error "Unexpected openAI chunk choice. tool_calls was provided but one or more tool_calls is missing." := by
  unfold fromOpenAiToolCall
  rw [h]

theorem claim3_missing_function_witness :
    fromOpenAiToolCall { id := some "call1", function := none } =
      .error "Unexpected openAI chunk choice. tool_calls was provided but one or more tool_calls is missing." :=
  claim3_missing_function { id := some "call1", function := none } rfl

/-- C2: a vendor tool-call entry with a function payload converts to a
tool-request part whose input is the JSON-parsed arguments when they parse,
and the raw arguments string unchanged when they do not; no error is raised
for malformed arguments. -/
theorem claim2_tool_args (tc : InToolCall) (f : ToolCallFunction) (s : String)
    (hf : tc.function = some f) (hs : f.arguments = some s) (hne : s ≠ "") :
    fromOpenAiToolCall tc =
      .ok { toolRequest := some (
        { name := f.name, ref := tc.id,
          input := (match jsonParse s with | some v => v | none => .str s) }) } := by
  unfold fromOpenAiToolCall
  rw [hf]
  simp only [hs, isEmpty_false_of_ne hne, Bool.false_eq_true, if_false]

def c2CallA : InToolCall :=
  { id := some "id1"
    function := some { name := some "f", arguments := some "\x7b\"x\":1\x7d" } }

def c2CallB : InToolCall :=
  { id := some "id2", function := some { name := some "g", arguments := some "not json" } }

theorem claim2_tool_args_witness :
    fromOpenAiToolCall c2CallA =
      .ok { toolRequest := some (
        { name := some "f", ref := some "id1", input := .obj [("x", .num 1)] }) } ∧
    fromOpenAiToolCall c2CallB =
      .ok { toolRequest := some (
        { name := some "g", ref := some "id2", input := .str "not json" }) } := by
  constructor
  · have h := claim2_tool_args c2CallA
      { name := some "f", arguments := some "\x7b\"x\":1\x7d" } "\x7b\"x\":1\x7d"
      rfl rfl (by decide)
    rw [h]
    rfl
  · have h := claim2_tool_args c2CallB
      { name := some "g", arguments := some "not json" } "not json" rfl rfl (by decide)
    rw [h]
    rfl

/-- C4: the reduced finish reason follows the fixed table for present
vendor values on both paths, while an absent value maps to `other` on the
non-streaming path and to `unknown` on the streaming path. -/
theorem claim4_finish_reason (choice : Choice) (chunk : ChunkChoice) (jm jm2 : Bool) :
    (∀ cand, fromOpenAiChoice choice jm = .ok cand →
      cand.finishReason =
        match choice.finish_reason with
        | some r => specFinishTable r
        | none => .other) ∧
    (∀ cand, chunk.finish_reason ≠ some "" →
      fromOpenAiChunkChoice chunk jm2 = .ok cand →
      cand.finishReason =
        match chunk.finish_reason with
        | some r => specFinishTable r
        | none => .unknown) := by
  constructor
  · intro cand h
    have hfr : cand.finishReason =
        match choice.finish_reason with
        | some r => (finishReasonMap r).getD .other
        | none => .other := by
      unfold fromOpenAiChoice at h
      split at h
      · split at h
        · exact absurd h (by simp)
        · split at h
          · cases h
            rfl
          · split at h
            · exact absurd h (by simp)
            · cases h
              rfl
      · split at h
        · exact absurd h (by simp)
        · cases h
          rfl
    rw [hfr]
    cases choice.finish_reason with
    | none => rfl
    | some r => exact finishReasonMap_getD r
  · intro cand hne h
    have hfr : cand.finishReason =
        match chunk.finish_reason with
        | some r =>
          if r.isEmpty then FinishReason.unknown
          else (finishReasonMap r).getD .other
        | none => .unknown := by
      unfold fromOpenAiChunkChoice at h
      split at h
      · split at h
        · exact absurd h (by simp)
        · cases h
          rfl
      · split at h
        · exact absurd h (by simp)
        · cases h
          rfl
    rw [hfr]
    cases hr : chunk.finish_reason with
    | none => rfl
    | some r =>
      have hrne : r ≠ "" := fun hcon => hne (by rw [hr, hcon])
      simp only [isEmpty_false_of_ne hrne, Bool.false_eq_true, if_false]
      exact finishReasonMap_getD r

/-- C5: for a non-streaming choice without tool calls, `jsonMode = true`
yields a single data part holding the JSON-parsed content and fails hard
when the content does not parse, while `jsonMode = false` keeps the content
as a single text part. -/
theorem claim5_json_mode (choice : Choice) (h : choice.message.tool_calls = none) :
    (∀ s v, choice.message.content = some s → jsonParse s = some v →
      ∃ cand, fromOpenAiChoice choice true = .ok cand ∧
        cand.message.content = [{ data := some v }]) ∧
    (∀ s, choice.message.content = some s → jsonParse s = none →
      ∃ e, fromOpenAiChoice choice true = .error e) ∧
    (∃ cand, fromOpenAiChoice choice false = .ok cand ∧
      cand.message.content = [{ text := choice.message.content }]) := by
  refine ⟨?_, ?_, ?_⟩
  · intro s v hs hv
    refine ⟨mkChoiceCandidate choice [{ data := some v }], ?_, rfl⟩
    unfold fromOpenAiChoice
    rw [h]
    unfold choiceContentPart
    simp [hs, hv]
  · intro s hs hv
    refine ⟨"Unexpected token in JSON", ?_⟩
    unfold fromOpenAiChoice
    rw [h]
    unfold choiceContentPart
    simp [hs, hv]
  · refine ⟨mkChoiceCandidate choice [{ text := choice.message.content }], ?_, rfl⟩
    unfold fromOpenAiChoice
    rw [h]
    unfold choiceContentPart
    simp

def c5ChoiceA : Choice :=
  { index := 0, finish_reason := some "stop"
    message := { content := some "\x7b\"a\":1\x7d", tool_calls := none } }

def c5ChoiceB : Choice :=
  { index := 0, finish_reason := some "stop"
    message := { content := some "not json", tool_calls := none } }

theorem claim5_json_mode_witness :
    (fromOpenAiChoice c5ChoiceA true).toOption.map (fun c => c.message.content) =
      some [{ data := some (.obj [("a", .num 1)]) }] ∧
    (fromOpenAiChoice c5ChoiceB true).toOption = none ∧
    (fromOpenAiChoice c5ChoiceA false).toOption.map (fun c => c.message.content) =
      some [{ text := some "\x7b\"a\":1\x7d" }] := by
  refine ⟨?_, ?_, ?_⟩
  · obtain ⟨cand, hc, hcc⟩ :=
      (claim5_json_mode c5ChoiceA rfl).1 "\x7b\"a\":1\x7d" (.obj [("a", .num 1)]) rfl rfl
    rw [hc]
    simp [Except.toOption, hcc]
  · obtain ⟨e, he⟩ := (claim5_json_mode c5ChoiceB rfl).2.1 "not json" rfl rfl
    rw [he]
    rfl
  · obtain ⟨cand, hc, hcc⟩ := (claim5_json_mode c5ChoiceA rfl).2.2
    rw [hc]
    simp [Except.toOption, hcc]
    rfl

/-- C9: the streaming path converts every chunk with `jsonMode` left at its
default `false`, so a fragment without tool calls always reaches the
callback as a single text part (never a parsed data part), regardless of
the request's desired output format — only `gptRunnerCandidates` (the final
consolidated response) derives `jsonMode` from the request. -/
theorem claim9_stream_text_only (chunk : ChunkChoice)
    (h : chunk.delta.tool_calls = none) :
    gptRunnerChunkEvent chunk =
      .ok { index := chunk.index, content := [{ text := chunk.delta.content }] } := by
  unfold gptRunnerChunkEvent fromOpenAiChunkChoice
  rw [h]
  rfl

theorem claim9_stream_text_only_witness :
    gptRunnerChunkEvent
      { index := 3, finish_reason := none
        delta := { content := some "hi", tool_calls := none } } =
      .ok { index := 3, content := [{ text := some "hi" }] } :=
  claim9_stream_text_only
    { index := 3, finish_reason := none
      delta := { content := some "hi", tool_calls := none } } rfl

/-- C10: a chunk choice whose delta carries an empty tool-call array
reduces to empty content (the text branch is skipped), while a
non-streaming choice with an empty tool-call array falls through to the
single text part branch. -/
theorem claim10_empty_tool_calls (chunk : ChunkChoice) (choice : Choice) (jm : Bool)
    (h1 : chunk.delta.tool_calls = some []) (h2 : choice.message.tool_calls = some []) :
    (∃ cand, fromOpenAiChunkChoice chunk jm = .ok cand ∧
      cand.message.content = []) ∧
    (∃ cand, fromOpenAiChoice choice false = .ok cand ∧
      cand.message.content = [{ text := choice.message.content }]) := by
  constructor
  · refine ⟨mkChunkCandidate chunk [], ?_, rfl⟩
    unfold fromOpenAiChunkChoice
    rw [h1]
    rfl
  · refine ⟨mkChoiceCandidate choice [{ text := choice.message.content }], ?_, rfl⟩
    unfold fromOpenAiChoice
    rw [h2]
    rfl

theorem claim10_empty_tool_calls_witness :
    (fromOpenAiChunkChoice
      { index := 0, finish_reason := none
        delta := { content := some "hi", tool_calls := some [] } } false).toOption.map
        (fun c => c.message.content) = some [] ∧
    (fromOpenAiChoice
      { index := 0, finish_reason := some "stop"
        message := { content := some "hi", tool_calls := some [] } } false).toOption.map
        (fun c => c.message.content) = some [{ text := some "hi" }] := by
  obtain ⟨⟨cand1, hc1, hcc1⟩, ⟨cand2, hc2, hcc2⟩⟩ :=
    claim10_empty_tool_calls
      { index := 0, finish_reason := none
        delta := { content := some "hi", tool_calls := some [] } }
      { index := 0, finish_reason := some "stop"
        message := { content := some "hi", tool_calls := some [] } }
      false rfl rfl
  constructor
  · rw [hc1]
    simp [Except.toOption, hcc1]
  · rw [hc2]
    simp [Except.toOption, hcc2]


theorem lookup_filter_none {p : String × JSVal → Bool} (l : List (String × JSVal))
    (k : String) (h : ∀ v, (k, v) ∈ l → p (k, v) = false) :
    (l.filter p).lookup k = none := by
  induction l with
  | nil => rfl
  | cons kv tl ih =>
    have htl : (tl.filter p).lookup k = none :=
      ih fun v hv => h v (List.mem_cons_of_mem kv hv)
    rcases kv with ⟨k1, v1⟩
    by_cases hk : k1 = k
    · subst hk
      have hp : p (k1, v1) = false := h v1 (List.mem_cons_self _ _)
      simp [List.filter_cons, hp, htl]
    · cases hp : p (k1, v1) with
      | false => simp [List.filter_cons, hp, htl]
      | true =>
        have hbk : (k == k1) = false := by
          simp [Ne.symm hk]
        simp [List.filter_cons, hp, List.lookup, hbk, htl]

theorem lookup_stripFalsy_cons_model (s : String) (hne : s ≠ "")
    (rest : List (String × JSVal)) :
    (stripFalsy (("model", JSVal.str s) :: rest)).lookup "model" =
      some (JSVal.str s) := by
  have hkeep : jsKeepField (JSVal.str s) = true := by
    simp [jsKeepField, JSVal.truthy, JSVal.isEmptyArray, isEmpty_false_of_ne hne]
  simp [stripFalsy, List.filter_cons, hkeep, List.lookup]

theorem addResponseFormat_shape {model : ModelRef} {mapped : String}
    {request : GenerateRequest} {body body2 : List (String × JSVal)}
    (h : addResponseFormat model mapped request body = .ok body2) :
    body2 = body ∨ ∃ v, body2 = body ++ [("response_format", v)] := by
  unfold addResponseFormat at h
  split at h
  · split at h
    · split at h
      · right
        exact ⟨_, (Except.ok.inj h).symm⟩
      · split at h
        · right
          exact ⟨_, (Except.ok.inj h).symm⟩
        · exact absurd h (by simp)
    · left
      exact (Except.ok.inj h).symm
  · left
    exact (Except.ok.inj h).symm

theorem lookup_mem_values {l : List (String × ModelRef)} {k : String} {m : ModelRef}
    (h : l.lookup k = some m) : m ∈ l.map Prod.snd := by
  induction l with
  | nil => cases h
  | cons kv tl ih =>
    rcases kv with ⟨k1, v1⟩
    simp only [List.lookup] at h
    split at h
    · have hv : v1 = m := Option.some.inj h
      rw [← hv]
      exact List.mem_cons_self _ _
    · exact List.mem_cons_of_mem _ (ih h)

theorem registry_lookup_facts (modelName : String) (model : ModelRef)
    (h : SUPPORTED_GPT_MODELS.lookup modelName = some model) :
    model.version = none ∧ modelName ≠ "" := by
  constructor
  · have hm := lookup_mem_values h
    simp only [SUPPORTED_GPT_MODELS, List.map_cons, List.map_nil, List.mem_cons,
      List.not_mem_nil, or_false] at hm
    rcases hm with rfl | rfl | rfl | rfl | rfl | rfl <;> rfl
  · intro hemp
    subst hemp
    rw [show SUPPORTED_GPT_MODELS.lookup "" = none from rfl] at h
    cases h

theorem ne_of_isEmpty_false {s : String} (h : s.isEmpty = false) : s ≠ "" := by
  intro hcon
  subst hcon
  exact absurd h (by decide)

theorem toOpenAiRequestBody_ok_elim {modelName : String} {request : GenerateRequest}
    {body : List (String × JSVal)}
    (hok : toOpenAiRequestBody modelName request = .ok body) :
    ∃ model msgs body2,
      SUPPORTED_GPT_MODELS.lookup modelName = some model ∧
      toOpenAiMessages request.messages
        (request.config.bind fun c => c.visualDetailLevel) = .ok msgs ∧
      addResponseFormat model (resolvedModelVersion model modelName request) request
        (requestBodyFields (resolvedModelVersion model modelName request) msgs
          request) = .ok body2 ∧
      body = stripFalsy body2 := by
  unfold toOpenAiRequestBody at hok
  split at hok
  · exact absurd hok (by simp)
  · rename_i model hm
    split at hok
    · exact absurd hok (by simp)
    · rename_i msgs hmsgs
      split at hok
      · exact absurd hok (by simp)
      · rename_i body2 haf
        exact ⟨model, msgs, body2, hm, hmsgs, haf, (Except.ok.inj hok).symm⟩

theorem lookup_model_requestBody (s : String) (hne : s ≠ "")
    (msgs : List OpenAiMsg) (request : GenerateRequest)
    (extra : List (String × JSVal)) :
    (stripFalsy (requestBodyFields s msgs request ++ extra)).lookup "model" =
      some (JSVal.str s) := by
  have hshape : requestBodyFields s msgs request ++ extra =
      ("model", JSVal.str s) :: ((requestBodyFields s msgs request).tail ++ extra) := rfl
  rw [hshape]
  exact lookup_stripFalsy_cons_model s hne _

def c1Req : GenerateRequest :=
  { messages := [], output := some { format := some "json" } }

/-- C1 counterexample: for model `gpt-4`, the resolved version is not in
the allow-list and the descriptor does not list `json`, yet the builder
succeeds with no `response_format` field and no error — the format request
is silently dropped, contrary to the claim. -/
theorem claim1_counterexample :
    (c1Req.output.bind fun o => o.format) = some "json" ∧
    MODELS_SUPPORTING_OPENAI_RESPONSE_FORMAT.contains
      (resolvedModelVersion gpt4 "gpt-4" c1Req) = false ∧
    modelSupportsOutput gpt4 "json" = false ∧
    toOpenAiRequestBody "gpt-4" c1Req = .ok [("model", .str "gpt-4")] :=
  ⟨rfl, rfl, rfl, rfl⟩

theorem toOpenAiRequestBody_eq_of {modelName : String} {request : GenerateRequest}
    {model : ModelRef} {msgs : List OpenAiMsg}
    (hm : SUPPORTED_GPT_MODELS.lookup modelName = some model)
    (hmsgs : toOpenAiMessages request.messages
      (request.config.bind fun c => c.visualDetailLevel) = .ok msgs) :
    toOpenAiRequestBody modelName request =
      match addResponseFormat model (resolvedModelVersion model modelName request)
          request (requestBodyFields (resolvedModelVersion model modelName request)
            msgs request) with
      | .error e => .error e
      | .ok body2 => .ok (stripFalsy body2) := by
  unfold toOpenAiRequestBody
  rw [hm, hmsgs]

/-- C1 (amended): when a format is requested, the builder raises the
unsupported-output-format error exactly when the resolved version is in the
allow-list but the format is not declared supported; when the resolved
version is not in the allow-list, the format request is silently dropped
(success with no `response_format` field). -/
theorem claim1_amended (modelName : String) (request : GenerateRequest)
    (model : ModelRef) (fmt : String) (msgs : List OpenAiMsg)
    (hm : SUPPORTED_GPT_MODELS.lookup modelName = some model)
    (hmsgs : toOpenAiMessages request.messages
      (request.config.bind fun c => c.visualDetailLevel) = .ok msgs)
    (hfmt : (request.output.bind fun o => o.format) = some fmt)
    (hne : fmt ≠ "") :
    (resolvedModelVersion model modelName request ∈
        MODELS_SUPPORTING_OPENAI_RESPONSE_FORMAT →
      ¬(fmt = "json" ∧ modelSupportsOutput model "json" = true) →
      ¬(fmt = "text" ∧ modelSupportsOutput model "text" = true) →
      toOpenAiRequestBody modelName request =
        .error (fmt ++ " format is not supported for GPT models currently")) ∧
    (resolvedModelVersion model modelName request ∉
        MODELS_SUPPORTING_OPENAI_RESPONSE_FORMAT →
      ∃ body, toOpenAiRequestBody modelName request = .ok body ∧
        body.lookup "response_format" = none) := by
  constructor
  · intro hallow hnj hnt
    have haf : addResponseFormat model (resolvedModelVersion model modelName request)
        request (requestBodyFields (resolvedModelVersion model modelName request)
          msgs request) =
        .error (fmt ++ " format is not supported for GPT models currently") := by
      simp only [addResponseFormat, hfmt]
      rw [if_pos ⟨hne, hallow⟩, if_neg hnj, if_neg hnt]
    rw [toOpenAiRequestBody_eq_of hm hmsgs, haf]
  · intro hallow
    have haf : addResponseFormat model (resolvedModelVersion model modelName request)
        request (requestBodyFields (resolvedModelVersion model modelName request)
          msgs request) =
        .ok (requestBodyFields (resolvedModelVersion model modelName request)
          msgs request) := by
      simp only [addResponseFormat, hfmt]
      rw [if_neg (fun hcon => hallow hcon.2)]
    refine ⟨stripFalsy (requestBodyFields (resolvedModelVersion model modelName request)
      msgs request), ?_, ?_⟩
    · rw [toOpenAiRequestBody_eq_of hm hmsgs, haf]
    · unfold stripFalsy
      apply lookup_filter_none
      intro v hv
      have hmem : "response_format" ∈
          (requestBodyFields (resolvedModelVersion model modelName request)
            msgs request).map Prod.fst :=
        List.mem_map_of_mem Prod.fst hv
      rw [show (requestBodyFields (resolvedModelVersion model modelName request)
        msgs request).map Prod.fst =
        ["model", "messages", "temperature", "max_tokens", "top_p", "stop",
         "frequency_penalty", "logit_bias", "logprobs", "presence_penalty",
         "seed", "top_logprobs", "user", "tools", "n"] from rfl] at hmem
      exact absurd hmem (by decide)

def c1AReq : GenerateRequest :=
  { messages := [], config := some { version := some "gpt-4-turbo" }
    output := some { format := some "json" } }

theorem claim1_amended_witness :
    toOpenAiRequestBody "gpt-4" c1AReq =
      .error "json format is not supported for GPT models currently" ∧
    (toOpenAiRequestBody "gpt-4" c1Req).toOption.map
      (fun b => b.lookup "response_format") = some none := by
  constructor
  · have h := (claim1_amended "gpt-4" c1AReq gpt4 "json" [] rfl rfl rfl
      (by decide)).1 (by decide) (by decide) (by decide)
    simpa using h
  · obtain ⟨body, hb, hlook⟩ := (claim1_amended "gpt-4" c1Req gpt4 "json" [] rfl rfl rfl
      (by decide)).2 (by decide)
    rw [hb]
    simp [Except.toOption, hlook]

/-- C6: the model field of the built body carries the explicit request
version override when present (and truthy), otherwise the raw model name;
the middle priority (a descriptor default version) is never present for any
registered model, so the override-else-descriptor-else-name order holds. -/
theorem claim6_version_priority (modelName : String) (request : GenerateRequest)
    (body : List (String × JSVal))
    (hok : toOpenAiRequestBody modelName request = .ok body) :
    (∀ v, (request.config.bind fun c => c.version) = some v → v ≠ "" →
      body.lookup "model" = some (.str v)) ∧
    (∀ model, SUPPORTED_GPT_MODELS.lookup modelName = some model →
      model.version = none) ∧
    (((request.config.bind fun c => c.version) = none ∨
        (request.config.bind fun c => c.version) = some "") →
      body.lookup "model" = some (.str modelName)) := by
  obtain ⟨model, msgs, body2, hm, hmsgs, haf, hbody⟩ := toOpenAiRequestBody_ok_elim hok
  obtain ⟨hver, hname⟩ := registry_lookup_facts modelName model hm
  have hmapne : resolvedModelVersion model modelName request ≠ "" := by
    simp only [resolvedModelVersion, jsStrOr, hver]
    cases hcv : (request.config.bind fun c => c.version) with
    | none => exact hname
    | some v =>
      cases hve : v.isEmpty with
      | true => simpa [hve] using hname
      | false => simpa [hve] using ne_of_isEmpty_false hve
  have hlook : body.lookup "model" =
      some (.str (resolvedModelVersion model modelName request)) := by
    rcases addResponseFormat_shape haf with heq | ⟨w, heq⟩
    · rw [hbody, heq, show requestBodyFields (resolvedModelVersion model modelName request)
        msgs request = requestBodyFields (resolvedModelVersion model modelName request)
        msgs request ++ [] from (List.append_nil _).symm]
      exact lookup_model_requestBody _ hmapne msgs request []
    · rw [hbody, heq]
      exact lookup_model_requestBody _ hmapne msgs request _
  refine ⟨?_, ?_, ?_⟩
  · intro v hv hvne
    have hmv : resolvedModelVersion model modelName request = v := by
      simp [resolvedModelVersion, jsStrOr, hv, isEmpty_false_of_ne hvne]
    rw [← hmv]
    exact hlook
  · intro model2 hm2
    have : model2 = model := Option.some.inj (hm2.symm.trans hm)
    rw [this]
    exact hver
  · intro hcv
    have hmv : resolvedModelVersion model modelName request = modelName := by
      simp only [resolvedModelVersion, jsStrOr, hver]
      rcases hcv with h0 | h0
      · simp [h0]
      · simp [h0]
        exact fun hcon => absurd hcon (by decide)
    rw [← hmv]
    exact hlook

def c6Req : GenerateRequest :=
  { messages := [], config := some { version := some "gpt-4o-2024-05-13" } }

def c6ReqNoV : GenerateRequest := { messages := [] }

theorem claim6_version_priority_witness :
    (toOpenAiRequestBody "gpt-4o" c6Req).toOption.map (fun b => b.lookup "model") =
      some (some (.str "gpt-4o-2024-05-13")) ∧
    (toOpenAiRequestBody "gpt-4o" c6ReqNoV).toOption.map (fun b => b.lookup "model") =
      some (some (.str "gpt-4o")) := by
  constructor
  · have h := (claim6_version_priority "gpt-4o" c6Req
      [("model", .str "gpt-4o-2024-05-13")] rfl).1 "gpt-4o-2024-05-13" rfl (by decide)
    rw [show toOpenAiRequestBody "gpt-4o" c6Req =
      .ok [("model", JSVal.str "gpt-4o-2024-05-13")] from rfl]
    simp [Except.toOption, h]
  · have h := (claim6_version_priority "gpt-4o" c6ReqNoV
      [("model", .str "gpt-4o")] rfl).2.2 (Or.inl rfl)
    rw [show toOpenAiRequestBody "gpt-4o" c6ReqNoV =
      .ok [("model", JSVal.str "gpt-4o")] from rfl]
    simp [Except.toOption, h]

/-- C7: every field of a successfully built body is truthy and not a
zero-length array (falsy and empty-array fields are stripped), and a
request leaving `seed` unset yields a body with no `seed` key at all. -/
theorem claim7_strip_falsy (modelName : String) (request : GenerateRequest)
    (body : List (String × JSVal))
    (hok : toOpenAiRequestBody modelName request = .ok body) :
    (∀ k v, (k, v) ∈ body → v.truthy = true ∧ v.isEmptyArray = false) ∧
    ((request.config.bind fun c => c.seed) = none →
      body.lookup "seed" = none) := by
  obtain ⟨model, msgs, body2, hm, hmsgs, haf, hbody⟩ := toOpenAiRequestBody_ok_elim hok
  constructor
  · intro k v hkv
    rw [hbody] at hkv
    unfold stripFalsy at hkv
    obtain ⟨_, hp⟩ := List.mem_filter.mp hkv
    unfold jsKeepField at hp
    obtain ⟨h1, h2⟩ := Bool.and_eq_true _ _ |>.mp hp
    exact ⟨h1, by simpa using h2⟩
  · intro hseed
    rw [hbody]
    unfold stripFalsy
    apply lookup_filter_none
    intro v hv
    have hvval : v = JSVal.undefined := by
      rcases addResponseFormat_shape haf with heq | ⟨w, heq⟩
      · rw [heq] at hv
        simp [requestBodyFields, optNumVal, hseed] at hv
        exact hv
      · rw [heq] at hv
        rcases List.mem_append.mp hv with hv2 | hv2
        · simp [requestBodyFields, optNumVal, hseed] at hv2
          exact hv2
        · simp at hv2
    rw [hvval]
    rfl

/-! ## Round trip (C8) -/

/-- The textual content of a vendor content item (media items contribute
nothing). -/
def openAiContentPartText : OpenAiContentPart → String
  | .text t => t
  | .imageUrl _ _ => ""

/-- The echoable textual content of a vendor message: the joined text items
of a user message, or the flattened content of a system or plain assistant
message. -/
def openAiMsgText : OpenAiMsg → Option String
  | .user parts => some (String.join (parts.map openAiContentPartText))
  | .system c => some c
  | .assistantText c => some c
  | .assistantToolCalls _ => none
  | .tool _ _ => none

/-- A vendor choice echoing the given content string back. -/
def echoChoice (s : String) : Choice :=
  { index := 0, finish_reason := some "stop"
    message := { content := some s, tool_calls := none } }

/-- The round trip of the claim: convert one generic message to its vendor
form, extract the text a vendor echo would carry, and reduce that echo
through the non-streaming reducer; the result is the reduced content. -/
def textRoundTrip (m : MessageData) : Except String (List MsgPart) :=
  match toOpenAiMessages [m] none with
  | .error e => .error e
  | .ok msgs =>
    match msgs with
    | [vmsg] =>
      match openAiMsgText vmsg with
      | some s =>
        match fromOpenAiChoice (echoChoice s) false with
        | .error e => .error e
        | .ok cand => .ok cand.message.content
      | none => .error "vendor message has no text content"
    | _ => .error "expected exactly one vendor message"

theorem mapExcept_textParts (detail : String) (parts : List MsgPart)
    (h : ∀ p ∈ parts, ∃ t, p.text = some t ∧ t ≠ "") :
    mapExcept (fun part => toOpenAiTextAndMedia part detail) parts =
      .ok (parts.map fun p => .text (p.text.getD "")) := by
  induction parts with
  | nil => rfl
  | cons p tl ih =>
    obtain ⟨t, hpt, htne⟩ := h p (List.mem_cons_self _ _)
    have hpart : toOpenAiTextAndMedia p detail = .ok (.text (p.text.getD "")) := by
      simp [toOpenAiTextAndMedia, strOptTruthy, hpt, isEmpty_false_of_ne htne]
    have htl := ih fun q hq => h q (List.mem_cons_of_mem _ hq)
    simp [mapExcept, hpart, htl]

theorem filterMap_toolRequest_none {β : Type} (f : ToolRequest → β)
    (parts : List MsgPart) (h : ∀ p ∈ parts, p.toolRequest = none) :
    (parts.filterMap fun part => part.toolRequest.map f) = [] := by
  induction parts with
  | nil => rfl
  | cons p tl ih =>
    have hp := h p (List.mem_cons_self _ _)
    have htl := ih fun q hq => h q (List.mem_cons_of_mem _ hq)
    simp [List.filterMap_cons, hp, htl]

/-- C8: for a generic message of role user, system or model whose parts are
all non-empty text parts, building the vendor message and reducing a vendor
echo of its textual content yields a candidate whose text content is the
in-order concatenation of the original text parts. -/
theorem claim8_round_trip (m : MessageData) (hrole : m.role ≠ .tool)
    (hparts : ∀ p ∈ m.content,
      (∃ t, p.text = some t ∧ t ≠ "") ∧ p.media = none ∧
      p.toolRequest = none ∧ p.toolResponse = none) :
    textRoundTrip m =
      .ok [{ text := some (String.join (m.content.map fun p => p.text.getD "")) }] := by
  have htext : ∀ p ∈ m.content, ∃ t, p.text = some t ∧ t ≠ "" :=
    fun p hp => (hparts p hp).1
  cases hr : m.role with
  | tool => exact absurd hr hrole
  | user =>
    have h1 : toOpenAiMessageOne "auto" m =
        .ok [.user (m.content.map fun p => .text (p.text.getD ""))] := by
      simp only [toOpenAiMessageOne, hr, toOpenAIRole]
      rw [mapExcept_textParts "auto" m.content htext]
    have hconv : toOpenAiMessages [m] none =
        .ok [.user (m.content.map fun p => .text (p.text.getD ""))] := by
      simp [toOpenAiMessages, mapExcept, h1]
    unfold textRoundTrip
    rw [hconv]
    simp only [openAiMsgText, List.map_map]
    have hjoin : (m.content.map (openAiContentPartText ∘ fun p =>
        OpenAiContentPart.text (p.text.getD ""))) =
        m.content.map fun p => p.text.getD "" := by
      apply List.map_congr_left
      intro p _
      rfl
    rw [hjoin]
    rfl
  | system =>
    have h1 : toOpenAiMessageOne "auto" m = .ok [.system (msgText m)] := by
      simp only [toOpenAiMessageOne, hr, toOpenAIRole]
    have hconv : toOpenAiMessages [m] none = .ok [.system (msgText m)] := by
      simp [toOpenAiMessages, mapExcept, h1]
    unfold textRoundTrip
    rw [hconv]
    rfl
  | model =>
    have hnotool : ∀ p ∈ m.content, p.toolRequest = none :=
      fun p hp => (hparts p hp).2.2.1
    have h1 : toOpenAiMessageOne "auto" m = .ok [.assistantText (msgText m)] := by
      simp only [toOpenAiMessageOne, hr, toOpenAIRole]
      rw [filterMap_toolRequest_none _ m.content hnotool]
      rfl
    have hconv : toOpenAiMessages [m] none = .ok [.assistantText (msgText m)] := by
      simp [toOpenAiMessages, mapExcept, h1]
    unfold textRoundTrip
    rw [hconv]
    rfl

def c8Msg : MessageData :=
  { role := .user, content := [{ text := some "hello" }, { text := some "world" }] }

theorem claim8_round_trip_witness :
    textRoundTrip c8Msg = .ok [{ text := some "helloworld" }] := by
  have h := claim8_round_trip c8Msg (by simp [c8Msg]) ?_
  · rw [h]
    rfl
  · intro p hp
    simp only [c8Msg, List.mem_cons, List.not_mem_nil, or_false] at hp
    rcases hp with rfl | rfl
    · exact ⟨⟨"hello", rfl, by decide⟩, rfl, rfl, rfl⟩
    · exact ⟨⟨"world", rfl, by decide⟩, rfl, rfl, rfl⟩

def c4Choice : Choice :=
  { index := 0, finish_reason := some "tool_calls"
    message := { content := some "hi", tool_calls := none } }

def c4Chunk : ChunkChoice :=
  { index := 0, finish_reason := none
    delta := { content := some "hi", tool_calls := none } }

theorem claim4_finish_reason_witness :
    (fromOpenAiChoice c4Choice false).toOption.map (fun c => c.finishReason) =
      some FinishReason.stop ∧
    (fromOpenAiChunkChoice c4Chunk false).toOption.map (fun c => c.finishReason) =
      some FinishReason.unknown := by
  obtain ⟨h1, h2⟩ := claim4_finish_reason c4Choice c4Chunk false false
  constructor
  · have hev : fromOpenAiChoice c4Choice false =
        .ok (mkChoiceCandidate c4Choice [{ text := some "hi" }]) := rfl
    have h := h1 _ hev
    calc (fromOpenAiChoice c4Choice false).toOption.map (fun c => c.finishReason)
        = some ((mkChoiceCandidate c4Choice [{ text := some "hi" }]).finishReason) := by
          rw [hev]
          rfl
      _ = some FinishReason.stop := by
          rw [h]
          rfl
  · have hev : fromOpenAiChunkChoice c4Chunk false =
        .ok (mkChunkCandidate c4Chunk [{ text := some "hi" }]) := rfl
    have h := h2 _ (by simp [c4Chunk]) hev
    calc (fromOpenAiChunkChoice c4Chunk false).toOption.map (fun c => c.finishReason)
        = some ((mkChunkCandidate c4Chunk [{ text := some "hi" }]).finishReason) := by
          rw [hev]
          rfl
      _ = some FinishReason.unknown := by
          rw [h]
          rfl

def c7Req : GenerateRequest :=
  { messages := [{ role := .user, content := [{ text := some "hello" }] }]
    config := some { temperature := some 1 } }

def c7Body : List (String × JSVal) :=
  [("model", .str "gpt-4o"),
   ("messages", .arr [.obj [("role", .str "user"),
      ("content", .arr [.obj [("type", .str "text"), ("text", .str "hello")]])]]),
   ("temperature", .num 1)]

theorem claim7_strip_falsy_witness :
    (toOpenAiRequestBody "gpt-4o" c7Req).toOption.map (fun b => b.lookup "seed") =
      some none ∧
    (JSVal.num 1).truthy = true := by
  constructor
  · have h := (claim7_strip_falsy "gpt-4o" c7Req c7Body rfl).2 rfl
    rw [show toOpenAiRequestBody "gpt-4o" c7Req = .ok c7Body from rfl]
    simp [Except.toOption, h]
  · have h := (claim7_strip_falsy "gpt-4o" c7Req c7Body rfl).1 "temperature"
      (JSVal.num 1) (by simp [c7Body])
    exact h.1
